import Mathlib

/-!
Shallow embedding of the HW6 widget consumer (consumer.py) and proofs of the
specification claims about it.

The embedding models:
* the pure transform helpers normalize_owner, s3_key_for_widget, flatten_widget;
* the request source over bucket 2 (try_get_one_request, delete_request);
* the two sinks (store_widget_to_s3, store_widget_to_dynamo);
* process_request and the polling loop of main, as a pure step function on an
  explicit state that records the pending collection, both sink stores, the
  log events and a trace of the AWS calls made.

Python dictionaries are modelled as ordered association lists with the exact
dict-update semantics (updating an existing key keeps its position, a new key
is appended).  Python str.lower() and single-character str.replace are
modelled character-wise; str.lower() is modelled on the ASCII range, which is
the range Char.toLower handles.
-/

/-- Python dict lookup d[k] over an ordered association list: first matching
key (keys are unique by construction of dictInsert). -/
def dictGet : List (String × String) → String → Option String
  | [], _ => none
  | (k', v') :: rest, k => if k' = k then some v' else dictGet rest k

/-- Python dict update d[k] = v: an existing key keeps its position and gets
the new value; a fresh key is appended at the end (insertion order). -/
def dictInsert : List (String × String) → String → String → List (String × String)
  | [], k, v => [(k, v)]
  | (k', v') :: rest, k, v =>
    if k' = k then (k, v) :: rest else (k', v') :: dictInsert rest k v

/-- Whether key k is present in the dict. -/
def dictHasKey (m : List (String × String)) (k : String) : Bool :=
  (dictGet m k).isSome

/-- Character-wise model of the single-character Python replace(" ", "-"). -/
def py_replace_space_dash (c : Char) : Char :=
  if c = ' ' then '-' else c

/-- consumer.normalize_owner: owner.replace(" ", "-").lower().
Replace spaces with dashes and convert to lowercase. -/
def normalize_owner (owner : String) : String :=
  String.mk ((owner.data.map py_replace_space_dash).map Char.toLower)

/-- consumer.s3_key_for_widget: build the key widgets/\x7bowner\x7d/\x7bwidget_id\x7d
for a widget object in bucket 3. -/
def s3_key_for_widget (owner : String) (widget_id : String) : String :=
  "widgets/" ++ normalize_owner owner ++ "/" ++ widget_id

/-- One entry of the otherAttributes sequence of a widget request:
\x7bname, value\x7d. -/
structure OtherAttribute where
  name : String
  value : String
deriving DecidableEq, Repr

/-- A parsed Widget Request JSON document.  Each field models data.get(k):
none is an absent key (or JSON null for label/description). -/
structure WidgetRequest where
  type? : Option String := none
  requestId? : Option String := none
  widgetId? : Option String := none
  owner? : Option String := none
  label? : Option String := none
  description? : Option String := none
  otherAttributes? : Option (List OtherAttribute) := none
deriving DecidableEq, Repr

/-- consumer.flatten_widget.  req["widgetId"] and req["owner"] raise KeyError
when absent (modelled as Except.error); label and description are copied only
when non-null and non-empty; otherAttributes entries are folded in input
order with dict-update (last-write-wins) semantics. -/
def flatten_widget (req : WidgetRequest) : Except String (List (String × String)) := do
  let wid ← match req.widgetId? with
    | some w => Except.ok w
    | none => Except.error "KeyError: widgetId"
  let own ← match req.owner? with
    | some o => Except.ok o
    | none => Except.error "KeyError: owner"
  let out : List (String × String) := [("widget_id", wid), ("owner", own)]
  let out := match req.label? with
    | some l => if l ≠ "" then dictInsert out "label" l else out
    | none => out
  let out := match req.description? with
    | some d => if d ≠ "" then dictInsert out "description" d else out
    | none => out
  let out := (req.otherAttributes?.getD []).foldl
    (fun m oa => dictInsert m oa.name oa.value) out
  return out

/-- One hex digit, lowercase, as produced by json.dumps \u escapes. -/
def hexDigit (n : Nat) : Char :=
  if n < 10 then Char.ofNat (48 + n) else Char.ofNat (87 + n)

/-- JSON string escaping of one character as json.dumps does with
ensure_ascii=False: the two mandatory escapes, the short control escapes,
other control characters as \u00XX, everything else verbatim. -/
def jsonEscapeChar (c : Char) : String :=
  if c = '"' then "\\\""
  else if c = '\\' then "\\\\"
  else if c = '\n' then "\\n"
  else if c = '\r' then "\\r"
  else if c = '\t' then "\\t"
  else if c = '\x08' then "\\b"
  else if c = '\x0c' then "\\f"
  else if c.toNat < 32 then
    "\\u00" ++ String.mk [hexDigit (c.toNat / 16), hexDigit (c.toNat % 16)]
  else String.singleton c

/-- A JSON string literal for s. -/
def jsonStr (s : String) : String :=
  "\"" ++ String.join (s.data.map jsonEscapeChar) ++ "\""

/-- json.dumps(widget, separators=(",", ":"), ensure_ascii=False) on a dict of
strings: compact JSON object in insertion order. -/
def json_dumps_compact (m : List (String × String)) : String :=
  "\x7b" ++ String.intercalate ","
    (m.map (fun p => jsonStr p.1 ++ ":" ++ jsonStr p.2)) ++ "\x7d"

/-- The outcome of json.loads on the raw text of a pending object: either a
JSONDecodeError, or the parsed request document (json.loads itself is
library code outside the repository; it is modelled by its outcome). -/
inductive RawText where
  | malformed
  | parsed (req : WidgetRequest)
deriving DecidableEq, Repr

/-- A DynamoDB attribute value of string type: \x7b"S": v\x7d. -/
structure AttrValueS where
  S : String
deriving DecidableEq, Repr

/-- One successful AWS backend call made by the consumer, for tracing the
order of the external effects. -/
inductive AwsCall where
  | listObjects
  | getObject (key : String)
  | deleteObject (key : String)
  | putObject (key : String) (body : String)
  | putItem (item : List (String × AttrValueS))
deriving DecidableEq, Repr

/-- One logging call made by the consumer. -/
inductive LogEvent where
  | invalidJson (key : String)
  | deleteFailed (key : String)
  | skipUpdateDelete (t : String)
  | unknownType (t : String)
  | processed (requestId : Option String) (type? : Option String)
  | processError (key : String)
deriving DecidableEq, Repr

/-- Character-wise ASCII model of Python str.lower(), used on the type field. -/
def py_lower_string (s : String) : String :=
  String.mk (s.data.map Char.toLower)

/-- Python truthiness of an optional string: None and "" are falsy. -/
def truthyStr : Option String → Bool
  | none => false
  | some s => s ≠ ""

/-- The destination storage selected once at startup (args.dest). -/
inductive Dest where
  | s3
  | dynamo
deriving DecidableEq, Repr

/-- The configuration resolved by argument parsing, as consumed by the loop. -/
structure Config where
  dest : Dest
  dest_bucket : Option String := none
  dynamo_table : Option String := none
  max_iterations : Nat := 0
deriving DecidableEq, Repr

/-- The mutable world the consumer touches: the pending collection
(bucket 2), the blob store (bucket 3), the DynamoDB table, the log stream,
the trace of successful AWS calls, and the loop counters of main. -/
structure LoopState where
  pending : List (String × RawText)
  blob : List (String × String) := []
  table : List (List (String × AttrValueS)) := []
  logs : List LogEvent := []
  trace : List AwsCall := []
  iterations : Nat := 0
  sleeps : Nat := 0
deriving DecidableEq, Repr

/-- Fault injection for the external backend: when deleteFails is true,
s3.delete_object raises a ClientError. -/
structure Faults where
  deleteFails : Bool := false
deriving DecidableEq, Repr

/-- The entry with the smaller key, preferring e on a tie or when the second
argument is absent. -/
def minEntryWith (e : String × RawText) : Option (String × RawText) → String × RawText
  | none => e
  | some a => if a.1 < e.1 then a else e

/-- Entry of the pending collection with the lexicographically smallest key
(the first one on equal keys, which cannot occur for bucket keys). -/
def smallestEntry : List (String × RawText) → Option (String × RawText)
  | [] => none
  | e :: rest => some (minEntryWith e (smallestEntry rest))

/-- consumer.try_get_one_request: list_objects_v2 with MaxKeys=1 returns the
lexicographically smallest key; get_object fetches its content.  Returns the
envelope \x7bkey, text\x7d or none for an empty bucket, together with the AWS
calls it made (reads only). -/
def try_get_one_request (pending : List (String × RawText)) :
    Option (String × RawText) × List AwsCall :=
  match smallestEntry pending with
  | none => (none, [AwsCall.listObjects])
  | some e => (some e, [AwsCall.listObjects, AwsCall.getObject e.1])

/-- consumer.delete_request: s3.delete_object on bucket 2 removes the object
with the given key (idempotent: absent keys are a no-op). -/
def delete_request (pending : List (String × RawText)) (key : String) :
    List (String × RawText) :=
  pending.filter (fun e => e.1 ≠ key)

/-- consumer.store_widget_to_s3: serialize the widget dict compactly and
put_object it under s3_key_for_widget(widget["owner"], widget["widget_id"]).
Returns the key and body put (the dict accesses cannot fail on outputs of
flatten_widget, but are modelled faithfully as KeyError). -/
def store_widget_to_s3 (widget : List (String × String)) :
    Except String (String × String) := do
  let own ← match dictGet widget "owner" with
    | some o => Except.ok o
    | none => Except.error "KeyError: owner"
  let wid ← match dictGet widget "widget_id" with
    | some w => Except.ok w
    | none => Except.error "KeyError: widget_id"
  return (s3_key_for_widget own wid, json_dumps_compact widget)

/-- consumer.store_widget_to_dynamo: the item sent to put_item, one string
attribute \x7b"S": v\x7d per key/value pair of the widget dict. -/
def store_widget_to_dynamo (widget : List (String × String)) :
    List (String × AttrValueS) :=
  widget.map (fun p => (p.1, AttrValueS.mk p.2))

/-- consumer.process_request: dispatch on str(data.get("type", "")).lower().
Only "create" runs the transform and a sink; "update"/"delete" and unknown
types only log.  Errors (KeyError from flatten_widget, ValueError from a
missing destination argument) propagate to the caller. -/
def process_request (data : WidgetRequest) (dest : Dest)
    (bucket3 : Option String) (table : Option String) (st : LoopState) :
    Except String LoopState :=
  let t := py_lower_string (data.type?.getD "")
  if t = "create" then
    match flatten_widget data with
    | Except.error e => Except.error e
    | Except.ok widget_flat =>
      match dest with
      | Dest.s3 =>
        if truthyStr bucket3 = false then
          Except.error "ValueError: dest=s3 requires --dest-bucket"
        else
          match store_widget_to_s3 widget_flat with
          | Except.error e => Except.error e
          | Except.ok (key, body) =>
            Except.ok { st with
              blob := dictInsert st.blob key body,
              trace := st.trace ++ [AwsCall.putObject key body] }
      | Dest.dynamo =>
        if truthyStr table = false then
          Except.error "ValueError: dest=dynamo requires --dynamo-table"
        else
          let item := store_widget_to_dynamo widget_flat
          Except.ok { st with
            table := st.table ++ [item],
            trace := st.trace ++ [AwsCall.putItem item] }
  else if t = "update" ∨ t = "delete" then
    Except.ok { st with logs := st.logs ++ [LogEvent.skipUpdateDelete t] }
  else
    Except.ok { st with logs := st.logs ++ [LogEvent.unknownType t] }

/-- One iteration of the while-True loop of consumer.main.  Returns
Except.error only where an exception escapes the loop body: a ClientError
from the unprotected delete_request in the JSONDecodeError branch (the
delete after a successful parse, by contrast, has its own try/except). -/
def loop_iteration (cfg : Config) (f : Faults) (st : LoopState) :
    Except String LoopState :=
  let fetched := try_get_one_request st.pending
  let st := { st with trace := st.trace ++ fetched.2 }
  match fetched.1 with
  | none =>
    let st := { st with sleeps := st.sleeps + 1 }
    Except.ok { st with iterations := st.iterations + 1 }
  | some (key, text) =>
    match text with
    | RawText.malformed =>
      let st := { st with logs := st.logs ++ [LogEvent.invalidJson key] }
      if f.deleteFails then
        Except.error "ClientError: delete_object failed"
      else
        let st := { st with
          pending := delete_request st.pending key,
          trace := st.trace ++ [AwsCall.deleteObject key] }
        Except.ok { st with iterations := st.iterations + 1 }
    | RawText.parsed data =>
      let st :=
        if f.deleteFails then
          { st with logs := st.logs ++ [LogEvent.deleteFailed key] }
        else
          { st with
            pending := delete_request st.pending key,
            trace := st.trace ++ [AwsCall.deleteObject key] }
      let st :=
        match process_request data cfg.dest cfg.dest_bucket cfg.dynamo_table st with
        | Except.ok st' =>
          { st' with logs := st'.logs ++ [LogEvent.processed data.requestId? data.type?] }
        | Except.error _ =>
          { st with logs := st.logs ++ [LogEvent.processError key] }
      Except.ok { st with iterations := st.iterations + 1 }

/-- The polling loop of consumer.main, run for at most fuel iterations: after
each iteration it stops when max_iterations is nonzero and reached (the fuel
makes the unbounded max_iterations = 0 mode a total function; every claim
about termination supplies a positive max_iterations). -/
def run_loop (cfg : Config) (f : Faults) : Nat → LoopState → Except String LoopState
  | 0, st => Except.ok st
  | fuel + 1, st =>
    match loop_iteration cfg f st with
    | Except.error e => Except.error e
    | Except.ok st' =>
      if cfg.max_iterations ≠ 0 ∧ cfg.max_iterations ≤ st'.iterations then
        Except.ok st'
      else
        run_loop cfg f fuel st'

/-- The record built by flatten_widget before the otherAttributes fold
(a proof-side decomposition of flatten_widget). -/
def flattenBase (wid own : String) (lab des : Option String) : List (String × String) :=
  let out : List (String × String) := [("widget_id", wid), ("owner", own)]
  let out := match lab with
    | some l => if l ≠ "" then dictInsert out "label" l else out
    | none => out
  match des with
  | some d => if d ≠ "" then dictInsert out "description" d else out
  | none => out

/-- No injected backend faults. -/
def faultsNone : Faults := {}

/-- Fault injection: s3.delete_object raises a ClientError. -/
def faultsDelete : Faults := { deleteFails := true }

/-- The create request of the end-to-end blob-sink scenario:
\x7bwidgetId: "w1", owner: "Alice", otherAttributes: []\x7d. -/
def reqC1 : WidgetRequest :=
  { type? := some "create", widgetId? := some "w1", owner? := some "Alice",
    otherAttributes? := some [] }

/-- Blob sink selected, destination bucket b3. -/
def cfgS3 : Config := { dest := Dest.s3, dest_bucket := some "b3" }

/-- Table sink selected, destination table widgets. -/
def cfgDyn : Config := { dest := Dest.dynamo, dynamo_table := some "widgets" }

/-- Initial state of the end-to-end scenario: one pending envelope holding
the create request, everything else empty. -/
def stC1 : LoopState := { pending := [("r1.json", RawText.parsed reqC1)] }

/-- Expected state after one iteration of the end-to-end scenario. -/
def stC1_out : LoopState :=
  { pending := [],
    blob := [("widgets/alice/w1", "\x7b\"widget_id\":\"w1\",\"owner\":\"Alice\"\x7d")],
    table := [],
    logs := [LogEvent.processed none (some "create")],
    trace := [AwsCall.listObjects, AwsCall.getObject "r1.json",
      AwsCall.deleteObject "r1.json",
      AwsCall.putObject "widgets/alice/w1" "\x7b\"widget_id\":\"w1\",\"owner\":\"Alice\"\x7d"],
    iterations := 1,
    sleeps := 0 }

/-- C3 counterexample input: label is present but the empty string, while an
otherAttributes entry is itself named "label". -/
def reqC3bad : WidgetRequest :=
  { widgetId? := some "w", owner? := some "o", label? := some "",
    otherAttributes? := some [OtherAttribute.mk "label" "X"] }

/-- Witness input for the amended C3: non-colliding otherAttributes. -/
def reqC3w : WidgetRequest :=
  { widgetId? := some "w2", owner? := some "Alice", label? := some "L",
    description? := some "",
    otherAttributes? := some [OtherAttribute.mk "color" "red"] }

/-- Two otherAttributes entries sharing the name color. -/
def reqC4colors : WidgetRequest :=
  { widgetId? := some "w1", owner? := some "Alice",
    otherAttributes? := some
      [OtherAttribute.mk "color" "red", OtherAttribute.mk "color" "blue"] }

/-- An otherAttributes entry colliding with the reserved key owner. -/
def reqC4owner : WidgetRequest :=
  { widgetId? := some "w1", owner? := some "Alice",
    otherAttributes? := some [OtherAttribute.mk "owner" "X"] }

/-- A create request with owner but no widgetId. -/
def reqC6w : WidgetRequest :=
  { type? := some "create", owner? := some "Alice" }

/-- A create request with mixed-case type, exercising case-insensitive
dispatch. -/
def reqC7create : WidgetRequest :=
  { type? := some "CrEaTe", widgetId? := some "w9", owner? := some "Bob",
    otherAttributes? := some [] }

/-- An update request (recognized but not actionable). -/
def reqC7update : WidgetRequest :=
  { type? := some "UPDATE", widgetId? := some "w9", owner? := some "Bob" }

/-- State with one pending envelope holding the mixed-case create request. -/
def stC7 : LoopState := { pending := [("u1.json", RawText.parsed reqC7create)] }

/-- Expected state after dispatching the mixed-case create request. -/
def stC7_out : LoopState :=
  { pending := [],
    blob := [("widgets/bob/w9", "\x7b\"widget_id\":\"w9\",\"owner\":\"Bob\"\x7d")],
    table := [],
    logs := [LogEvent.processed none (some "CrEaTe")],
    trace := [AwsCall.listObjects, AwsCall.getObject "u1.json",
      AwsCall.deleteObject "u1.json",
      AwsCall.putObject "widgets/bob/w9" "\x7b\"widget_id\":\"w9\",\"owner\":\"Bob\"\x7d"],
    iterations := 1,
    sleeps := 0 }

/-- Blob sink with a three-iteration cap. -/
def cfgMax3 : Config :=
  { dest := Dest.s3, dest_bucket := some "b3", max_iterations := 3 }

/-- An always-empty pending collection. -/
def stEmpty : LoopState := { pending := [] }

/-- The warning process_request logs for a non-create request type: update
and delete are recognized but skipped, everything else is unknown. -/
def nonCreateLog (data : WidgetRequest) : LogEvent :=
  let ty := py_lower_string (data.type?.getD "")
  if ty = "update" ∨ ty = "delete" then LogEvent.skipUpdateDelete ty
  else LogEvent.unknownType ty

theorem dictGet_dictInsert_same (m : List (String × String)) (k v : String) :
    dictGet (dictInsert m k v) k = some v := by
  induction m with
  | nil => simp [dictInsert, dictGet]
  | cons e rest ih =>
    by_cases h : e.1 = k
    · simp [dictInsert, h, dictGet]
    · simp [dictInsert, h, dictGet, ih]

theorem dictGet_dictInsert_other (m : List (String × String)) (k v k' : String)
    (h : k ≠ k') : dictGet (dictInsert m k v) k' = dictGet m k' := by
  induction m with
  | nil => simp [dictInsert, dictGet, h]
  | cons e rest ih =>
    by_cases he : e.1 = k
    · simp [dictInsert, he, dictGet, h]
    · simp [dictInsert, he, dictGet, ih]

/-- Folding dict updates whose attribute names all differ from n leaves the
value at n unchanged. -/
theorem dictGet_foldl_not_mem (oas : List OtherAttribute) (m : List (String × String))
    (n : String) (h : ∀ oa ∈ oas, oa.name ≠ n) :
    dictGet (oas.foldl (fun m oa => dictInsert m oa.name oa.value) m) n = dictGet m n := by
  induction oas generalizing m with
  | nil => rfl
  | cons x rest ih =>
    simp only [List.foldl_cons]
    rw [ih _ (fun oa hm => h oa (List.mem_cons_of_mem x hm))]
    exact dictGet_dictInsert_other _ _ _ _ (h x (List.mem_cons_self x rest))

/-- Folding dict updates: the last entry named n wins. -/
theorem dictGet_foldl_last (oas : List OtherAttribute) (m : List (String × String))
    (n : String) (oa : OtherAttribute)
    (h : (oas.filter (fun x => x.name = n)).getLast? = some oa) :
    dictGet (oas.foldl (fun m oa => dictInsert m oa.name oa.value) m) n = some oa.value := by
  induction oas generalizing m with
  | nil => simp [List.filter] at h
  | cons x rest ih =>
    simp only [List.foldl_cons]
    rcases hr : (rest.filter (fun x => x.name = n)).getLast? with _ | y
    · have hrnil : rest.filter (fun x => x.name = n) = [] :=
        List.getLast?_eq_none_iff.mp hr
      have hall : ∀ z ∈ rest, z.name ≠ n := by
        intro z hz hzn
        have : z ∈ rest.filter (fun x => x.name = n) :=
          List.mem_filter.mpr ⟨hz, by simp [hzn]⟩
        simp [hrnil] at this
      rw [dictGet_foldl_not_mem rest _ n hall]
      by_cases hx : x.name = n
      · rw [List.filter_cons_of_pos (by simp [hx]), List.getLast?_cons, hrnil] at h
        simp at h
        subst h
        rw [← hx]
        exact dictGet_dictInsert_same m x.name x.value
      · rw [List.filter_cons_of_neg (by simp [hx]), hrnil] at h
        simp at h
    · have hlast : ((x :: rest).filter (fun z => z.name = n)).getLast? = some y := by
        by_cases hx : x.name = n
        · rw [List.filter_cons_of_pos (by simp [hx]), List.getLast?_cons, hr]
          rfl
        · rw [List.filter_cons_of_neg (by simp [hx]), hr]
      rw [h] at hlast
      obtain rfl : oa = y := Option.some.inj hlast
      exact ih _ hr

theorem flatten_widget_ok (req : WidgetRequest) (wid own : String)
    (h1 : req.widgetId? = some wid) (h2 : req.owner? = some own) :
    flatten_widget req = Except.ok
      ((req.otherAttributes?.getD []).foldl (fun m oa => dictInsert m oa.name oa.value)
        (flattenBase wid own req.label? req.description?)) := by
  simp [flatten_widget, h1, h2, flattenBase, Except.bind, bind, pure, Except.pure]

theorem flattenBase_widget_id (wid own : String) (lab des : Option String) :
    dictGet (flattenBase wid own lab des) "widget_id" = some wid := by
  rcases lab with _ | l <;> rcases des with _ | d <;>
    simp [flattenBase, dictInsert, dictGet] <;> split_ifs <;>
    simp_all [dictGet, dictInsert]

theorem flattenBase_owner (wid own : String) (lab des : Option String) :
    dictGet (flattenBase wid own lab des) "owner" = some own := by
  rcases lab with _ | l <;> rcases des with _ | d <;>
    simp [flattenBase, dictInsert, dictGet] <;> split_ifs <;>
    simp_all [dictGet, dictInsert]

theorem flattenBase_label (wid own : String) (lab des : Option String) :
    dictGet (flattenBase wid own lab des) "label" =
      match lab with
      | some l => if l ≠ "" then some l else none
      | none => none := by
  rcases lab with _ | l <;> rcases des with _ | d <;>
    simp [flattenBase, dictInsert, dictGet] <;> split_ifs <;>
    simp_all [dictGet, dictInsert]

theorem flattenBase_description (wid own : String) (lab des : Option String) :
    dictGet (flattenBase wid own lab des) "description" =
      match des with
      | some d => if d ≠ "" then some d else none
      | none => none := by
  rcases lab with _ | l <;> rcases des with _ | d <;>
    simp [flattenBase, dictInsert, dictGet] <;> split_ifs <;>
    simp_all [dictGet, dictInsert]

theorem toNat_ofNatAux (n : Nat) (h : n.isValidChar) : (Char.ofNatAux n h).toNat = n := rfl

theorem toNat_toLower (c : Char) :
    (Char.toLower c).toNat =
      if 65 ≤ c.toNat ∧ c.toNat ≤ 90 then c.toNat + 32 else c.toNat := by
  rw [Char.toLower]
  split
  case isTrue hr =>
    have hv : (c.toNat + 32).isValidChar := Or.inl (by omega)
    rw [Char.ofNat, dif_pos hv, toNat_ofNatAux]
  case isFalse hr => rfl

theorem toLower_ne_space (c : Char) (h : c ≠ ' ') : Char.toLower c ≠ ' ' := by
  intro hc
  have h2 := toNat_toLower c
  rw [hc] at h2
  have hsp : (' ' : Char).toNat = 32 := rfl
  rw [hsp] at h2
  split at h2
  · omega
  · refine h (Char.ext (UInt32.ext ?_))
    have : c.toNat = 32 := by omega
    exact this

theorem isUpper_toLower (c : Char) : (Char.toLower c).isUpper = false := by
  have h2 := toNat_toLower c
  rw [Char.isUpper]
  by_contra hb
  simp only [Bool.not_eq_false, Bool.and_eq_true, decide_eq_true_eq] at hb
  obtain ⟨h65, h90⟩ := hb
  have h65' : (65 : UInt32) ≤ (Char.toLower c).val := h65
  rw [UInt32.le_def, BitVec.le_def] at h65' h90
  have ha' : 65 ≤ (Char.toLower c).toNat := h65'
  have hb' : (Char.toLower c).toNat ≤ 90 := h90
  split at h2 <;> omega

theorem py_replace_space_dash_ne_space (c : Char) : py_replace_space_dash c ≠ ' ' := by
  rw [py_replace_space_dash]
  split
  · decide
  · assumption

theorem smallestEntry_eq_none_iff (l : List (String × RawText)) :
    smallestEntry l = none ↔ l = [] := by
  cases l with
  | nil => simp [smallestEntry]
  | cons e rest => simp [smallestEntry]

theorem smallestEntry_mem (l : List (String × RawText)) (e : String × RawText)
    (h : smallestEntry l = some e) : e ∈ l := by
  induction l with
  | nil => simp [smallestEntry] at h
  | cons x rest ih =>
    rw [smallestEntry] at h
    rcases hr : smallestEntry rest with _ | a <;> rw [hr] at h
    · obtain rfl : x = e := by simpa [minEntryWith] using h
      exact List.mem_cons_self x rest
    · rw [minEntryWith] at h
      split at h
      case isTrue hlt =>
        obtain rfl : a = e := Option.some.inj h
        exact List.mem_cons_of_mem x (ih hr)
      case isFalse hlt =>
        obtain rfl : x = e := Option.some.inj h
        exact List.mem_cons_self x rest

theorem smallestEntry_min (l : List (String × RawText)) :
    ∀ e : String × RawText, smallestEntry l = some e → ∀ e' ∈ l, ¬ e'.1 < e.1 := by
  induction l with
  | nil =>
    intro e h
    simp [smallestEntry] at h
  | cons x rest ih =>
    intro e h
    rw [smallestEntry] at h
    intro e' he'
    rcases hr : smallestEntry rest with _ | a <;> rw [hr] at h
    · obtain rfl : x = e := by simpa [minEntryWith] using h
      have : rest = [] := (smallestEntry_eq_none_iff rest).mp hr
      subst this
      rcases List.mem_cons.mp he' with h1 | h1
      · subst h1
        exact lt_irrefl _
      · simp at h1
    · rw [minEntryWith] at h
      split at h
      case isTrue hlt =>
        obtain rfl : a = e := Option.some.inj h
        rcases List.mem_cons.mp he' with h1 | h1
        · subst h1
          exact lt_asymm hlt
        · exact ih a hr e' h1
      case isFalse hlt =>
        obtain rfl : x = e := Option.some.inj h
        rcases List.mem_cons.mp he' with h1 | h1
        · subst h1
          exact lt_irrefl _
        · intro hc
          exact hlt (lt_of_le_of_lt (not_lt.mp (ih a hr e' h1)) hc)

/-- When try_get_one_request finds an envelope, its full result is that
envelope together with the two read calls it made. -/
theorem try_get_eq_of_fst_some (pending : List (String × RawText))
    (e : String × RawText) (h : (try_get_one_request pending).1 = some e) :
    try_get_one_request pending =
      (some e, [AwsCall.listObjects, AwsCall.getObject e.1]) := by
  rw [try_get_one_request] at h ⊢
  rcases hr : smallestEntry pending with _ | a <;> rw [hr] at h
  · simp at h
  · obtain rfl : a = e := by simpa using h
    rfl

/-- C1: for a pending collection holding exactly one envelope whose text is
the valid JSON create request \x7bwidgetId: "w1", owner: "Alice",
otherAttributes: []\x7d, one iteration of the dispatch loop with the blob sink
selected deletes the envelope before the store happens (the deleteObject call
precedes the putObject call in the trace), and afterwards the blob store
contains exactly one object at key "widgets/alice/w1" with compact JSON body
\x7b"widget_id":"w1","owner":"Alice"\x7d, and the pending collection is
empty. -/
theorem spec_C1 : loop_iteration cfgS3 faultsNone stC1 = Except.ok stC1_out := rfl

/-- C2: whenever the envelope fetched by the iteration has malformed JSON
text, the iteration deletes that envelope from the pending collection, logs
the failure, performs no sink call (the trace grows only by the two reads
and the delete), and ends; the request is discarded, not retried. -/
theorem spec_C2 (cfg : Config) (st : LoopState) (key : String)
    (hf : (try_get_one_request st.pending).1 = some (key, RawText.malformed)) :
    loop_iteration cfg faultsNone st = Except.ok
      { st with
          pending := delete_request st.pending key,
          logs := st.logs ++ [LogEvent.invalidJson key],
          trace := st.trace ++ [AwsCall.listObjects, AwsCall.getObject key,
            AwsCall.deleteObject key],
          iterations := st.iterations + 1 } := by
  have hpair := try_get_eq_of_fst_some _ _ hf
  simp only [loop_iteration, hpair, faultsNone]
  simp [List.append_assoc]

/-- Witness for C2 at a one-envelope pending collection. -/
theorem spec_C2_witness :
    loop_iteration cfgS3 faultsNone { pending := [("bad.json", RawText.malformed)] } =
      Except.ok
        { pending := delete_request [("bad.json", RawText.malformed)] "bad.json",
          logs := [LogEvent.invalidJson "bad.json"],
          trace := [AwsCall.listObjects, AwsCall.getObject "bad.json",
            AwsCall.deleteObject "bad.json"],
          iterations := 1 } :=
  spec_C2 cfgS3 { pending := [("bad.json", RawText.malformed)] } "bad.json" rfl

/-- C3 counterexample: the claim is false as stated.  For the request with
widgetId "w", owner "o", label "" (empty, so by the claim no "label" key may
appear) and an otherAttributes entry named "label", flatten_widget returns a
record that does contain key "label" (with the attribute value), because the
otherAttributes fold can overwrite or introduce the reserved keys. -/
theorem spec_C3_counterexample :
    reqC3bad.label? = some "" ∧
    flatten_widget reqC3bad =
      Except.ok [("widget_id", "w"), ("owner", "o"), ("label", "X")] ∧
    dictHasKey [("widget_id", "w"), ("owner", "o"), ("label", "X")] "label" = true :=
  ⟨rfl, rfl, by decide⟩

/-- C3 (amended): for every request input containing widgetId and owner whose
otherAttributes entries avoid the reserved names, flatten_widget returns a
record mapping "widget_id" and "owner" to those values, containing "label"
(resp. "description") exactly when the input label (resp. description) is
non-null and non-empty, in which case it maps to the input value unchanged. -/
theorem spec_C3 (req : WidgetRequest) (wid own : String)
    (h1 : req.widgetId? = some wid) (h2 : req.owner? = some own)
    (hres : ∀ oa ∈ req.otherAttributes?.getD [],
      oa.name ≠ "widget_id" ∧ oa.name ≠ "owner" ∧
      oa.name ≠ "label" ∧ oa.name ≠ "description") :
    ∃ out, flatten_widget req = Except.ok out ∧
      dictGet out "widget_id" = some wid ∧
      dictGet out "owner" = some own ∧
      (∀ l, req.label? = some l → l ≠ "" → dictGet out "label" = some l) ∧
      ((req.label? = none ∨ req.label? = some "") → dictGet out "label" = none) ∧
      (∀ d, req.description? = some d → d ≠ "" → dictGet out "description" = some d) ∧
      ((req.description? = none ∨ req.description? = some "") →
        dictGet out "description" = none) := by
  refine ⟨_, flatten_widget_ok req wid own h1 h2, ?_, ?_, ?_, ?_, ?_, ?_⟩
  · rw [dictGet_foldl_not_mem _ _ _ (fun oa h => (hres oa h).1)]
    exact flattenBase_widget_id wid own req.label? req.description?
  · rw [dictGet_foldl_not_mem _ _ _ (fun oa h => (hres oa h).2.1)]
    exact flattenBase_owner wid own req.label? req.description?
  · intro l hl hne
    rw [dictGet_foldl_not_mem _ _ _ (fun oa h => (hres oa h).2.2.1), flattenBase_label, hl]
    simp [hne]
  · intro hl
    rw [dictGet_foldl_not_mem _ _ _ (fun oa h => (hres oa h).2.2.1), flattenBase_label]
    rcases hl with h | h <;> rw [h] <;> simp
  · intro d hd hne
    rw [dictGet_foldl_not_mem _ _ _ (fun oa h => (hres oa h).2.2.2),
      flattenBase_description, hd]
    simp [hne]
  · intro hd
    rw [dictGet_foldl_not_mem _ _ _ (fun oa h => (hres oa h).2.2.2), flattenBase_description]
    rcases hd with h | h <;> rw [h] <;> simp

/-- Witness for the amended C3 at a concrete request with label "L",
description "" and one non-colliding attribute. -/
theorem spec_C3_witness :
    ∃ out, flatten_widget reqC3w = Except.ok out ∧
      dictGet out "widget_id" = some "w2" ∧
      dictGet out "owner" = some "Alice" ∧
      (∀ l, reqC3w.label? = some l → l ≠ "" → dictGet out "label" = some l) ∧
      ((reqC3w.label? = none ∨ reqC3w.label? = some "") → dictGet out "label" = none) ∧
      (∀ d, reqC3w.description? = some d → d ≠ "" → dictGet out "description" = some d) ∧
      ((reqC3w.description? = none ∨ reqC3w.description? = some "") →
        dictGet out "description" = none) :=
  spec_C3 reqC3w "w2" "Alice" rfl rfl (by decide)

/-- C4: flatten_widget folds otherAttributes in input order with
last-write-wins semantics: whenever the last entry named n in the sequence is
oa, the output record maps n to oa.value — including when n is one of the
reserved keys, which is then silently overwritten; concretely,
[(color,red),(color,blue)] yields color -> blue, and an entry named "owner"
with value "X" makes the record map "owner" to "X" although the request owner
is "Alice". -/
theorem spec_C4 :
    (∀ (req : WidgetRequest) (wid own n : String) (oa : OtherAttribute),
      req.widgetId? = some wid → req.owner? = some own →
      ((req.otherAttributes?.getD []).filter (fun x => x.name = n)).getLast? = some oa →
      ∃ out, flatten_widget req = Except.ok out ∧ dictGet out n = some oa.value) ∧
    (∃ out, flatten_widget reqC4colors = Except.ok out ∧
      dictGet out "color" = some "blue") ∧
    (∃ out, flatten_widget reqC4owner = Except.ok out ∧
      dictGet out "owner" = some "X") := by
  refine ⟨?_, ?_, ?_⟩
  · intro req wid own n oa h1 h2 hlast
    exact ⟨_, flatten_widget_ok req wid own h1 h2, dictGet_foldl_last _ _ _ _ hlast⟩
  · exact ⟨[("widget_id", "w1"), ("owner", "Alice"), ("color", "blue")], rfl, by decide⟩
  · exact ⟨[("widget_id", "w1"), ("owner", "X")], rfl, by decide⟩

/-- Witness for C4 at the two-color request: the later color wins. -/
theorem spec_C4_witness :
    ∃ out, flatten_widget reqC4colors = Except.ok out ∧
      dictGet out "color" = some "blue" :=
  spec_C4.1 reqC4colors "w1" "Alice" "color" (OtherAttribute.mk "color" "blue")
    rfl rfl (by decide)

/-- C5: normalize_owner is total (by type), produces no space characters and
no uppercase letters; s3_key_for_widget is the stated concatenation, and the
concrete example key for ("Alice Smith", "w-001") is
"widgets/alice-smith/w-001". -/
theorem spec_C5 :
    (∀ o : String, ∀ c ∈ (normalize_owner o).data, c ≠ ' ' ∧ c.isUpper = false) ∧
    (∀ own wid : String, s3_key_for_widget own wid =
      "widgets/" ++ normalize_owner own ++ "/" ++ wid) ∧
    s3_key_for_widget "Alice Smith" "w-001" = "widgets/alice-smith/w-001" := by
  refine ⟨?_, fun own wid => rfl, by decide⟩
  intro o c hc
  have hdata : (normalize_owner o).data =
      (o.data.map py_replace_space_dash).map Char.toLower := rfl
  rw [hdata] at hc
  obtain ⟨x, hx, rfl⟩ := List.mem_map.mp hc
  obtain ⟨y, hy, rfl⟩ := List.mem_map.mp hx
  exact ⟨toLower_ne_space _ (py_replace_space_dash_ne_space y), isUpper_toLower _⟩

/-- Witness for C5 at the character 'a' of normalize_owner "A b". -/
theorem spec_C5_witness : 'a' ≠ ' ' ∧ Char.isUpper 'a' = false :=
  spec_C5.1 "A b" 'a' (by decide)

/-- flatten_widget fails when widgetId or owner is absent. -/
theorem flatten_widget_missing (req : WidgetRequest)
    (h : req.widgetId? = none ∨ req.owner? = none) :
    ∃ e, flatten_widget req = Except.error e := by
  rcases hw : req.widgetId? with _ | w
  · exact ⟨"KeyError: widgetId", by simp [flatten_widget, hw, Except.bind, bind]⟩
  · rcases h with h | h
    · exact absurd h (by simp [hw])
    · exact ⟨"KeyError: owner", by simp [flatten_widget, hw, h, Except.bind, bind]⟩

/-- A flatten_widget failure on a create request propagates out of
process_request. -/
theorem process_request_error_of_flatten (data : WidgetRequest) (dest : Dest)
    (b t : Option String) (st : LoopState) (e : String)
    (ht : py_lower_string (data.type?.getD "") = "create")
    (he : flatten_widget data = Except.error e) :
    process_request data dest b t st = Except.error e := by
  simp only [process_request]
  rw [if_pos ht, he]

/-- C6: a create request missing widgetId or owner makes flatten_widget fail;
the failure propagates out of process_request (not swallowed in the
transform); at the dispatch loop it is caught and logged, no sink call
occurs (the trace grows only by the two reads and the delete), the envelope
was already deleted, and the iteration still ends normally. -/
theorem spec_C6 :
    (∀ req : WidgetRequest, (req.widgetId? = none ∨ req.owner? = none) →
      ∃ e, flatten_widget req = Except.error e) ∧
    (∀ (req : WidgetRequest) (dest : Dest) (b t : Option String) (st : LoopState),
      py_lower_string (req.type?.getD "") = "create" →
      (req.widgetId? = none ∨ req.owner? = none) →
      ∃ e, process_request req dest b t st = Except.error e) ∧
    (∀ (cfg : Config) (st : LoopState) (key : String) (data : WidgetRequest),
      (try_get_one_request st.pending).1 = some (key, RawText.parsed data) →
      py_lower_string (data.type?.getD "") = "create" →
      (data.widgetId? = none ∨ data.owner? = none) →
      loop_iteration cfg faultsNone st = Except.ok
        { st with
            pending := delete_request st.pending key,
            logs := st.logs ++ [LogEvent.processError key],
            trace := st.trace ++ [AwsCall.listObjects, AwsCall.getObject key,
              AwsCall.deleteObject key],
            iterations := st.iterations + 1 }) := by
  refine ⟨flatten_widget_missing, ?_, ?_⟩
  · intro req dest b t st ht hmiss
    obtain ⟨e, he⟩ := flatten_widget_missing req hmiss
    exact ⟨e, process_request_error_of_flatten req dest b t st e ht he⟩
  · intro cfg st key data hf ht hmiss
    have hpair := try_get_eq_of_fst_some _ _ hf
    obtain ⟨e, he⟩ := flatten_widget_missing data hmiss
    simp only [loop_iteration, hpair, faultsNone]
    rw [process_request_error_of_flatten data cfg.dest cfg.dest_bucket cfg.dynamo_table _ e ht he]
    simp [List.append_assoc]

/-- Witness for C6: a create request with owner but no widgetId, sitting in a
one-envelope pending collection. -/
theorem spec_C6_witness :
    loop_iteration cfgS3 faultsNone { pending := [("m1.json", RawText.parsed reqC6w)] } =
      Except.ok
        { pending := delete_request [("m1.json", RawText.parsed reqC6w)] "m1.json",
          logs := [LogEvent.processError "m1.json"],
          trace := [AwsCall.listObjects, AwsCall.getObject "m1.json",
            AwsCall.deleteObject "m1.json"],
          iterations := 1 } :=
  spec_C6.2.2 cfgS3 { pending := [("m1.json", RawText.parsed reqC6w)] } "m1.json" reqC6w
    rfl rfl (Or.inl rfl)

/-- For a non-create type, process_request only logs: the blob store, the
table and the trace are untouched. -/
theorem process_request_non_create (data : WidgetRequest) (dest : Dest)
    (b t : Option String) (st : LoopState)
    (ht : py_lower_string (data.type?.getD "") ≠ "create") :
    process_request data dest b t st = Except.ok
      { st with logs := st.logs ++ [nonCreateLog data] } := by
  simp only [process_request, nonCreateLog]
  rw [if_neg ht]
  split
  case isTrue h => rfl
  case isFalse h => rfl

/-- C7: the type field is compared case-insensitively (str.lower before
dispatch).  For any request whose lowered type is "update" or "delete", and
for any unrecognized type, process_request only logs — no sink call and no
other side effect — and the dispatch loop still deletes the envelope; only a
request whose lowered type is "create" reaches the transform and the sink, as
the mixed-case "CrEaTe" end-to-end conjunct shows. -/
theorem spec_C7 :
    (∀ (data : WidgetRequest) (dest : Dest) (b t : Option String) (st : LoopState),
      (py_lower_string (data.type?.getD "") = "update" ∨
        py_lower_string (data.type?.getD "") = "delete") →
      process_request data dest b t st = Except.ok
        { st with logs := st.logs ++
            [LogEvent.skipUpdateDelete (py_lower_string (data.type?.getD ""))] }) ∧
    (∀ (data : WidgetRequest) (dest : Dest) (b t : Option String) (st : LoopState),
      py_lower_string (data.type?.getD "") ≠ "create" →
      py_lower_string (data.type?.getD "") ≠ "update" →
      py_lower_string (data.type?.getD "") ≠ "delete" →
      process_request data dest b t st = Except.ok
        { st with logs := st.logs ++
            [LogEvent.unknownType (py_lower_string (data.type?.getD ""))] }) ∧
    (∀ (cfg : Config) (st : LoopState) (key : String) (data : WidgetRequest),
      (try_get_one_request st.pending).1 = some (key, RawText.parsed data) →
      py_lower_string (data.type?.getD "") ≠ "create" →
      loop_iteration cfg faultsNone st = Except.ok
        { st with
            pending := delete_request st.pending key,
            logs := st.logs ++ [nonCreateLog data,
              LogEvent.processed data.requestId? data.type?],
            trace := st.trace ++ [AwsCall.listObjects, AwsCall.getObject key,
              AwsCall.deleteObject key],
            iterations := st.iterations + 1 }) ∧
    loop_iteration cfgS3 faultsNone stC7 = Except.ok stC7_out := by
  refine ⟨?_, ?_, ?_, rfl⟩
  · intro data dest b t st hud
    have hnc : py_lower_string (data.type?.getD "") ≠ "create" := by
      rcases hud with h | h <;> rw [h] <;> decide
    rw [process_request_non_create data dest b t st hnc, nonCreateLog]
    rw [if_pos hud]
  · intro data dest b t st ht1 ht2 ht3
    rw [process_request_non_create data dest b t st ht1, nonCreateLog]
    rw [if_neg (fun h => h.elim ht2 ht3)]
  · intro cfg st key data hf hnc
    have hpair := try_get_eq_of_fst_some _ _ hf
    simp only [loop_iteration, hpair, faultsNone]
    rw [process_request_non_create data cfg.dest cfg.dest_bucket cfg.dynamo_table _ hnc]
    simp [List.append_assoc]

/-- Witness for C7 at a pending UPDATE request: deleted, logged, no sink
call. -/
theorem spec_C7_witness :
    loop_iteration cfgS3 faultsNone { pending := [("q.json", RawText.parsed reqC7update)] } =
      Except.ok
        { pending := delete_request [("q.json", RawText.parsed reqC7update)] "q.json",
          logs := [nonCreateLog reqC7update,
            LogEvent.processed none (some "UPDATE")],
          trace := [AwsCall.listObjects, AwsCall.getObject "q.json",
            AwsCall.deleteObject "q.json"],
          iterations := 1 } :=
  spec_C7.2.2.1 cfgS3 { pending := [("q.json", RawText.parsed reqC7update)] } "q.json"
    reqC7update rfl (by decide)

/-- process_request never touches the loop counters or the pending
collection. -/
theorem process_request_preserves (data : WidgetRequest) (dest : Dest)
    (b t : Option String) (st st' : LoopState)
    (h : process_request data dest b t st = Except.ok st') :
    st'.iterations = st.iterations ∧ st'.pending = st.pending ∧
      st'.sleeps = st.sleeps := by
  simp only [process_request] at h
  repeat' split at h
  all_goals first
    | (obtain rfl := Except.ok.inj h
       exact ⟨rfl, rfl, rfl⟩)
    | simp at h

/-- Every successful loop iteration increments the iteration counter by
exactly one, in each of the idle, parse-failure and processed branches. -/
theorem loop_iteration_iterations (cfg : Config) (f : Faults) (st st' : LoopState)
    (h : loop_iteration cfg f st = Except.ok st') :
    st'.iterations = st.iterations + 1 := by
  simp only [loop_iteration] at h
  rcases hfp : (try_get_one_request st.pending).1 with _ | e <;> rw [hfp] at h
  · obtain rfl := Except.ok.inj h
    rfl
  · obtain ⟨key, text⟩ := e
    rcases text with _ | data
    · dsimp only at h
      split at h
      · exact absurd h (by simp)
      · obtain rfl := Except.ok.inj h
        rfl
    · dsimp only at h
      split at h
      · rename_i st2 hp
        obtain rfl := Except.ok.inj h
        have h2 := (process_request_preserves _ _ _ _ _ _ hp).1
        have h3 : st2.iterations = st.iterations := by
          split at h2 <;> exact h2
        show st2.iterations + 1 = st.iterations + 1
        omega
      · obtain rfl := Except.ok.inj h
        show _ = st.iterations + 1
        split <;> rfl

/-- Without injected backend faults, a loop iteration never raises. -/
theorem loop_iteration_ok (cfg : Config) (st : LoopState) :
    ∃ st', loop_iteration cfg faultsNone st = Except.ok st' := by
  simp only [loop_iteration, faultsNone]
  rcases hfp : (try_get_one_request st.pending).1 with _ | e
  · exact ⟨_, rfl⟩
  · obtain ⟨key, text⟩ := e
    rcases text with _ | data
    · exact ⟨_, rfl⟩
    · dsimp only
      rw [if_neg (fun h : false = true => Bool.noConfusion h)]
      rcases hp : process_request data cfg.dest cfg.dest_bucket cfg.dynamo_table
          { st with
              trace := st.trace ++ (try_get_one_request st.pending).2 ++
                [AwsCall.deleteObject key],
              pending := delete_request st.pending key } with e1 | st2 <;>
        exact ⟨_, rfl⟩

/-- With a nonzero iteration cap and enough fuel, the loop terminates with
the counter exactly at the cap. -/
theorem run_loop_reaches (cfg : Config) (hmz : cfg.max_iterations ≠ 0) :
    ∀ (fuel : Nat) (st : LoopState), st.iterations < cfg.max_iterations →
      cfg.max_iterations ≤ st.iterations + fuel →
      ∃ st', run_loop cfg faultsNone fuel st = Except.ok st' ∧
        st'.iterations = cfg.max_iterations := by
  intro fuel
  induction fuel with
  | zero =>
    intro st h1 h2
    omega
  | succ n ih =>
    intro st h1 h2
    obtain ⟨st1, hs1⟩ := loop_iteration_ok cfg st
    have hit : st1.iterations = st.iterations + 1 :=
      loop_iteration_iterations _ _ _ _ hs1
    rw [run_loop, hs1]
    dsimp only
    by_cases hstop : cfg.max_iterations ≤ st1.iterations
    · rw [if_pos ⟨hmz, hstop⟩]
      exact ⟨st1, rfl, by omega⟩
    · rw [if_neg (fun hc => hstop hc.2)]
      exact ih st1 (by omega) (by omega)

/-- C8: every successful iteration increments the iteration counter exactly
once, in the idle, parse-failure and processed branches alike; with a
positive configured maximum, the fault-free loop terminates with the counter
exactly at the maximum; concretely, max_iterations = 3 over an always-empty
pending collection performs exactly 3 idle sleeps (and 3 listings) and then
stops cleanly. -/
theorem spec_C8 :
    (∀ (cfg : Config) (f : Faults) (st st' : LoopState),
      loop_iteration cfg f st = Except.ok st' →
      st'.iterations = st.iterations + 1) ∧
    (∀ (cfg : Config) (st : LoopState) (fuel : Nat),
      cfg.max_iterations ≠ 0 → st.iterations = 0 → cfg.max_iterations ≤ fuel →
      ∃ st', run_loop cfg faultsNone fuel st = Except.ok st' ∧
        st'.iterations = cfg.max_iterations) ∧
    run_loop cfgMax3 faultsNone 3 stEmpty = Except.ok
      { pending := [],
        trace := [AwsCall.listObjects, AwsCall.listObjects, AwsCall.listObjects],
        iterations := 3,
        sleeps := 3 } := by
  refine ⟨loop_iteration_iterations, ?_, rfl⟩
  intro cfg st fuel hmz h0 hfuel
  exact run_loop_reaches cfg hmz fuel st (by omega) (by omega)

/-- Witness for C8: the three-iteration idle run, obtained from the general
termination conjunct. -/
theorem spec_C8_witness :
    ∃ st', run_loop cfgMax3 faultsNone 3 stEmpty = Except.ok st' ∧
      st'.iterations = cfgMax3.max_iterations :=
  spec_C8.2.1 cfgMax3 stEmpty 3 (by decide) rfl (by decide)

/-- C9: try_get_one_request returns none exactly when the pending collection
is empty; otherwise it returns an envelope of the collection whose key is
lexicographically minimal (with its stored text), and the only backend calls
it makes are reads (a listing and a get), never a delete or a put — it does
not modify the pending collection. -/
theorem spec_C9 :
    (∀ pending : List (String × RawText),
      (try_get_one_request pending).1 = none ↔ pending = []) ∧
    (∀ (pending : List (String × RawText)) (e : String × RawText),
      (try_get_one_request pending).1 = some e →
      e ∈ pending ∧ ∀ e' ∈ pending, ¬ e'.1 < e.1) ∧
    (∀ pending : List (String × RawText), ∀ c ∈ (try_get_one_request pending).2,
      c = AwsCall.listObjects ∨ ∃ k, c = AwsCall.getObject k) := by
  refine ⟨?_, ?_, ?_⟩
  · intro pending
    rw [try_get_one_request]
    rcases hr : smallestEntry pending with _ | a
    · simpa using (smallestEntry_eq_none_iff pending).mp hr
    · constructor
      · intro h
        simp at h
      · intro h
        subst h
        simp [smallestEntry] at hr
  · intro pending e h
    rw [try_get_one_request] at h
    rcases hr : smallestEntry pending with _ | a <;> rw [hr] at h
    · simp at h
    · obtain rfl : a = e := by simpa using h
      exact ⟨smallestEntry_mem _ _ hr, smallestEntry_min _ _ hr⟩
  · intro pending c hc
    rw [try_get_one_request] at hc
    rcases hr : smallestEntry pending with _ | a <;> rw [hr] at hc <;> simp at hc
    · subst hc
      exact Or.inl rfl
    · rcases hc with h1 | h1
      · subst h1
        exact Or.inl rfl
      · subst h1
        exact Or.inr ⟨a.1, rfl⟩

/-- Witness for C9: of two pending envelopes the one with the smaller key is
returned, and it is minimal. -/
theorem spec_C9_witness :
    ("a.json", RawText.malformed) ∈
        [("b.json", RawText.malformed), ("a.json", RawText.malformed)] ∧
    ∀ e' ∈ [("b.json", RawText.malformed), ("a.json", RawText.malformed)],
      ¬ e'.1 < ("a.json", RawText.malformed).1 :=
  spec_C9.2.1 [("b.json", RawText.malformed), ("a.json", RawText.malformed)]
    ("a.json", RawText.malformed) (by simp [try_get_one_request, smallestEntry, minEntryWith]; decide)

/-- The create path with the blob sink: process_request stores the flattened
widget under its computed key. -/
theorem process_request_create_s3 (data : WidgetRequest) (b t : Option String)
    (st : LoopState) (w : List (String × String)) (k body : String)
    (ht : py_lower_string (data.type?.getD "") = "create")
    (hb : truthyStr b = true)
    (hw : flatten_widget data = Except.ok w)
    (hs : store_widget_to_s3 w = Except.ok (k, body)) :
    process_request data Dest.s3 b t st = Except.ok
      { st with
          blob := dictInsert st.blob k body,
          trace := st.trace ++ [AwsCall.putObject k body] } := by
  simp only [process_request]
  rw [if_pos ht, hw]
  dsimp only
  rw [hb]
  rw [if_neg (fun h : true = false => Bool.noConfusion h), hs]

/-- The create path with the table sink: process_request sends the flattened
widget as one put_item of string attributes. -/
theorem process_request_create_dynamo (data : WidgetRequest) (b t : Option String)
    (st : LoopState) (w : List (String × String))
    (ht : py_lower_string (data.type?.getD "") = "create")
    (htb : truthyStr t = true)
    (hw : flatten_widget data = Except.ok w) :
    process_request data Dest.dynamo b t st = Except.ok
      { st with
          table := st.table ++ [store_widget_to_dynamo w],
          trace := st.trace ++ [AwsCall.putItem (store_widget_to_dynamo w)] } := by
  simp only [process_request]
  rw [if_pos ht, hw]
  dsimp only
  rw [htb]
  rw [if_neg (fun h : true = false => Bool.noConfusion h)]

/-- C10: when the delete of a claimed, successfully parsed create envelope
fails with a ClientError while the store succeeds — with either sink — the
iteration logs the delete failure and still stores the widget: afterwards
the blob store (resp. the table) holds the widget while the pending
collection is unchanged (no deleteObject in the trace), so the very same
envelope is fetched again by the next try_get_one_request. -/
theorem spec_C10 :
    (∀ (cfg : Config) (st : LoopState) (key : String) (data : WidgetRequest)
      (w : List (String × String)) (k body : String),
      (try_get_one_request st.pending).1 = some (key, RawText.parsed data) →
      py_lower_string (data.type?.getD "") = "create" →
      cfg.dest = Dest.s3 → truthyStr cfg.dest_bucket = true →
      flatten_widget data = Except.ok w →
      store_widget_to_s3 w = Except.ok (k, body) →
      loop_iteration cfg faultsDelete st = Except.ok
        { st with
            blob := dictInsert st.blob k body,
            logs := st.logs ++ [LogEvent.deleteFailed key,
              LogEvent.processed data.requestId? data.type?],
            trace := st.trace ++ [AwsCall.listObjects, AwsCall.getObject key,
              AwsCall.putObject k body],
            iterations := st.iterations + 1 } ∧
      (try_get_one_request
        (({ st with
              blob := dictInsert st.blob k body,
              logs := st.logs ++ [LogEvent.deleteFailed key,
                LogEvent.processed data.requestId? data.type?],
              trace := st.trace ++ [AwsCall.listObjects, AwsCall.getObject key,
                AwsCall.putObject k body],
              iterations := st.iterations + 1 } : LoopState).pending)).1 =
        some (key, RawText.parsed data)) ∧
    (∀ (cfg : Config) (st : LoopState) (key : String) (data : WidgetRequest)
      (w : List (String × String)),
      (try_get_one_request st.pending).1 = some (key, RawText.parsed data) →
      py_lower_string (data.type?.getD "") = "create" →
      cfg.dest = Dest.dynamo → truthyStr cfg.dynamo_table = true →
      flatten_widget data = Except.ok w →
      loop_iteration cfg faultsDelete st = Except.ok
        { st with
            table := st.table ++ [store_widget_to_dynamo w],
            logs := st.logs ++ [LogEvent.deleteFailed key,
              LogEvent.processed data.requestId? data.type?],
            trace := st.trace ++ [AwsCall.listObjects, AwsCall.getObject key,
              AwsCall.putItem (store_widget_to_dynamo w)],
            iterations := st.iterations + 1 } ∧
      (try_get_one_request
        (({ st with
              table := st.table ++ [store_widget_to_dynamo w],
              logs := st.logs ++ [LogEvent.deleteFailed key,
                LogEvent.processed data.requestId? data.type?],
              trace := st.trace ++ [AwsCall.listObjects, AwsCall.getObject key,
                AwsCall.putItem (store_widget_to_dynamo w)],
              iterations := st.iterations + 1 } : LoopState).pending)).1 =
        some (key, RawText.parsed data)) := by
  constructor
  · intro cfg st key data w k body hf ht hdest hb hw hs
    have hpair := try_get_eq_of_fst_some _ _ hf
    refine ⟨?_, hf⟩
    simp only [loop_iteration, hpair, faultsDelete, hdest, if_true]
    rw [process_request_create_s3 data cfg.dest_bucket cfg.dynamo_table _ w k body ht hb hw hs]
    simp [List.append_assoc]
  · intro cfg st key data w hf ht hdest htb hw
    have hpair := try_get_eq_of_fst_some _ _ hf
    refine ⟨?_, hf⟩
    simp only [loop_iteration, hpair, faultsDelete, hdest, if_true]
    rw [process_request_create_dynamo data cfg.dest_bucket cfg.dynamo_table _ w ht htb hw]
    simp [List.append_assoc]

/-- Witness for C10, both sinks: the end-to-end create envelope with a
failing delete; the widget is stored (blob object resp. table item), the
envelope stays pending and is fetched again. -/
theorem spec_C10_witness :
    (loop_iteration cfgS3 faultsDelete stC1 = Except.ok
      { pending := [("r1.json", RawText.parsed reqC1)],
        blob := [("widgets/alice/w1", "\x7b\"widget_id\":\"w1\",\"owner\":\"Alice\"\x7d")],
        logs := [LogEvent.deleteFailed "r1.json",
          LogEvent.processed none (some "create")],
        trace := [AwsCall.listObjects, AwsCall.getObject "r1.json",
          AwsCall.putObject "widgets/alice/w1"
            "\x7b\"widget_id\":\"w1\",\"owner\":\"Alice\"\x7d"],
        iterations := 1 } ∧
    (try_get_one_request [("r1.json", RawText.parsed reqC1)]).1 =
      some ("r1.json", RawText.parsed reqC1)) ∧
    (loop_iteration cfgDyn faultsDelete stC1 = Except.ok
      { pending := [("r1.json", RawText.parsed reqC1)],
        table := [[("widget_id", AttrValueS.mk "w1"), ("owner", AttrValueS.mk "Alice")]],
        logs := [LogEvent.deleteFailed "r1.json",
          LogEvent.processed none (some "create")],
        trace := [AwsCall.listObjects, AwsCall.getObject "r1.json",
          AwsCall.putItem [("widget_id", AttrValueS.mk "w1"),
            ("owner", AttrValueS.mk "Alice")]],
        iterations := 1 } ∧
    (try_get_one_request [("r1.json", RawText.parsed reqC1)]).1 =
      some ("r1.json", RawText.parsed reqC1)) :=
  ⟨spec_C10.1 cfgS3 stC1 "r1.json" reqC1 [("widget_id", "w1"), ("owner", "Alice")]
    "widgets/alice/w1" "\x7b\"widget_id\":\"w1\",\"owner\":\"Alice\"\x7d"
    rfl rfl rfl rfl rfl rfl,
   spec_C10.2 cfgDyn stC1 "r1.json" reqC1 [("widget_id", "w1"), ("owner", "Alice")]
    rfl rfl rfl rfl rfl⟩
